import Mathlib

/-!
Shallow embedding of `op_builder/inference_core_ops.py` (class `InferenceCoreBuilder`).

Environment queries (`import torch`, `self.is_rocm_pytorch()`, `torch.cuda.is_available()`,
`installed_cuda_version()`, `torch.version.cuda`, `torch.cuda.get_device_properties(0).major`)
are modelled as fields of a `Facts` record: the Python code only reads them, never writes.
Warnings (`self.warning(...)` calls) are modelled as data appended to a list, one constructor
per call site, carrying the dynamic payload where the message has one.
-/

namespace InferenceCoreOps

/-- The environment facts read by `InferenceCoreBuilder`.  One field per distinct query the
Python methods perform. -/
structure Facts where
  /-- Whether `import torch` succeeds (`is_compatible`, line 24). -/
  torchAvailable : Bool
  /-- `self.is_rocm_pytorch()` (lines 30 and 73). -/
  rocm : Bool
  /-- `torch.cuda.is_available()` (lines 30 and 73). -/
  cudaAvailable : Bool
  /-- `installed_cuda_version()` first component (line 31). -/
  sysCudaMajor : Nat
  /-- `int(torch.version.cuda.split('.')[0])` (line 32). -/
  torchCudaMajor : Nat
  /-- `torch.cuda.get_device_properties(0).major` (lines 33 and 74). -/
  cudaCapability : Nat
  /-- Modelled from the spec: the verdict of `super().is_compatible(verbose)` (line 41).
  `CUDAOpBuilder.is_compatible` lives in `op_builder/builder.py`, which is not part of the
  resolved sources; the spec's Compatibility Gate lists no rule for it beyond rules 1-3, so it
  is a single boolean fact, independent of the generation and toolchain-version facts. -/
  superCompatible : Bool
deriving DecidableEq

/-- One constructor per `self.warning(...)` call site of `InferenceCoreBuilder`, carrying the
message's dynamic payload where it has one. -/
inductive Warning where
  /-- Line 26: "Please install torch if trying to pre-compile inference kernels". -/
  | installTorch : Warning
  /-- Line 35: "NVIDIA Inference is only supported on Pascal and newer architectures". -/
  | archTooOld : Warning
  /-- Line 39: "On Ampere and higher architectures please use CUDA 11+". -/
  | needCuda11 : Warning
  /-- Line 76: "FP6 quantization kernel is only supported on Ampere architectures". -/
  | fp6NotSupported : Warning
  /-- Line 52: "Filtered compute capabilities {ccs_pruned}"; the payload is the pruned list. -/
  | filteredCCs : List String → Warning
deriving DecidableEq

/-- `is_compatible` (lines 22-41): verdict plus the warnings it emits.  `cuda_okay` starts
true; the capability checks only run on the primary (non-ROCm) path with a device available;
the final verdict conjoins the base-class verdict. -/
def is_compatible (f : Facts) : Bool × List Warning :=
  if f.torchAvailable = false then
    (false, [Warning.installTorch])
  else
    let gateOld : Bool × List Warning :=
      if f.cudaCapability < 6 then (false, [Warning.archTooOld]) else (true, [])
    let gateNew : Bool × List Warning :=
      if 8 ≤ f.cudaCapability ∧ (f.torchCudaMajor < 11 ∨ f.sysCudaMajor < 11) then
        (false, [Warning.needCuda11])
      else (true, [])
    let cudaStep : Bool × List Warning :=
      if f.rocm = false ∧ f.cudaAvailable = true then
        (gateOld.1 && gateNew.1, gateOld.2 ++ gateNew.2)
      else (true, [])
    (f.superCompatible && cudaStep.1, cudaStep.2)

/-- Python `int(c)` on a single character: succeeds exactly on an ASCII digit. -/
def pyDigit (c : Char) : Option Nat :=
  if '0' ≤ c ∧ c ≤ '9' then some (c.toNat - '0'.toNat) else none

/-- `int(cc[0])` (line 47): fails (raises) on an empty string or a non-digit first character. -/
def ccGen (cc : String) : Option Nat :=
  match cc.data with
  | [] => none
  | c :: _ => pyDigit c

/-- The retention predicate of `filter_ccs`: the first character is a digit of value ≥ 6. -/
def retainedB (cc : String) : Bool :=
  match ccGen cc with
  | some g => decide (6 ≤ g)
  | none => false

/-- The loop of `filter_ccs` (lines 46-50): iterate in order, appending each `cc` to the
retained list when `int(cc[0]) >= 6` and to the pruned list otherwise; `none` models the
exception `int` raises on a malformed entry. -/
def filterLoop : List String → Option (List String × List String)
  | [] => some ([], [])
  | cc :: rest =>
    match ccGen cc with
    | none => none
    | some g =>
      match filterLoop rest with
      | none => none
      | some rp =>
        if 6 ≤ g then some (cc :: rp.1, rp.2) else some (rp.1, cc :: rp.2)

/-- `filter_ccs` (lines 43-53), exposing the retained list, the pruned list, and the warnings
emitted (lines 51-52: a single batched warning when the pruned list is non-empty). -/
def filter_ccs (ccs : List String) : Option (List String × List String × List Warning) :=
  match filterLoop ccs with
  | none => none
  | some rp =>
    some (rp.1, rp.2, if 0 < rp.2.length then [Warning.filteredCCs rp.2] else [])

/-- The caller's working-directory layout, reduced to the one fact `get_prefix` reads. -/
structure Cwd where
  /-- Whether the directory probed at line 56 exists: a subdirectory named `deepspeed`. -/
  deepspeedDirExists : Bool
deriving DecidableEq

/-- Modelled from the spec: `get_prefix` (lines 55-57) probes `self.deepspeed_src_path("deepspeed")`
with `os.path.isdir`; `deepspeed_src_path` lives in `op_builder/builder.py`, which is not part
of the resolved sources.  Per the spec's Path Resolver, the prefix is the project directory
name when that subdirectory exists under `cwd` and the parent reference otherwise. -/
def get_prefix (c : Cwd) : String :=
  if c.deepspeedDirExists then "deepspeed" else ".."

/-- `os.path.join(a, b)` for POSIX paths as used at lines 82 and 100. -/
def osPathJoin (a b : String) : String :=
  if b.data.head? = some '/' then b
  else if a = "" then b
  else if a.data.getLast? = some '/' then a ++ b
  else a ++ "/" ++ b

/-- The fixed baseline source list (lines 60-70). -/
def baselineSources : List String :=
  [ "inference/v2/kernels/core_ops/core_ops.cpp",
    "inference/v2/kernels/core_ops/bias_activations/bias_activation.cpp",
    "inference/v2/kernels/core_ops/bias_activations/bias_activation_cuda.cu",
    "inference/v2/kernels/core_ops/cuda_layer_norm/layer_norm.cpp",
    "inference/v2/kernels/core_ops/cuda_layer_norm/layer_norm_cuda.cu",
    "inference/v2/kernels/core_ops/cuda_rms_norm/rms_norm.cpp",
    "inference/v2/kernels/core_ops/cuda_rms_norm/rms_norm_cuda.cu",
    "inference/v2/kernels/core_ops/gated_activations/gated_activation_kernels.cpp",
    "inference/v2/kernels/core_ops/gated_activations/gated_activation_kernels_cuda.cu" ]

/-- The two generation-8-specific sources (lines 78-79). -/
def gen8Sources : List String :=
  [ "inference/v2/kernels/core_ops/cuda_linear/fp6_linear.cu",
    "inference/v2/kernels/core_ops/cuda_linear/cuda_linear_kernels.cpp" ]

/-- `sources` (lines 59-83) under the intended reading of line 73 as a fact query: baseline,
conditionally extended with the two generation-8 files on the primary path with a device of
capability exactly 8 (warning when the capability differs), every entry then prefixed via
`get_prefix`.  In the file as written the name `torch` is never bound at module scope (the
`import torch` at line 24 is local to `is_compatible`), so the primary path of the real
function raises `NameError` before producing these values; `sources_actual` below models
that behavior. -/
def sources (f : Facts) (c : Cwd) : List String × List Warning :=
  let srcsWs : List String × List Warning :=
    if f.rocm = false ∧ f.cudaAvailable = true then
      if f.cudaCapability ≠ 8 then (baselineSources, [Warning.fp6NotSupported])
      else (baselineSources ++ gen8Sources, [])
    else (baselineSources, [])
  (srcsWs.1.map (fun s => osPathJoin ( get_prefix c) s), srcsWs.2)

/-- `sources` (lines 59-83) with Python name resolution made explicit.  The module imports
only `os` and two names from `.builder`, and the `import torch` at line 24 binds a local
name inside `is_compatible`, never the module global.  At line 73 the conjunction
short-circuits: with the alternate (ROCm) variant active the second conjunct is not
evaluated and the prefixed baseline is returned with no warning; on the primary path,
evaluating the unbound name `torch` raises `NameError`, modelled as `none`. -/
def sources_actual (f : Facts) (c : Cwd) : Option (List String × List Warning) :=
  if f.rocm = true then
    some (baselineSources.map (fun s => osPathJoin ( get_prefix c) s), [])
  else
    none

/-- `extra_ldflags` (lines 85-86). -/
def extra_ldflags (_f : Facts) : List String := []

/-- The fixed include-directory list (lines 89-97). -/
def includeDirs : List String :=
  [ "inference/v2/kernels/core_ops/bias_activations",
    "inference/v2/kernels/core_ops/blas_kernels",
    "inference/v2/kernels/core_ops/cuda_layer_norm",
    "inference/v2/kernels/core_ops/cuda_rms_norm",
    "inference/v2/kernels/core_ops/gated_activations",
    "inference/v2/kernels/core_ops/cuda_linear",
    "inference/v2/kernels/includes" ]

/-- `include_paths` (lines 88-102): the fixed list, each entry prefixed via `get_prefix`. -/
def include_paths (c : Cwd) : List String :=
  includeDirs.map (fun s => osPathJoin ( get_prefix c) s)

/-- The resolved build descriptor: ordered sources, ordered include directories, link flags. -/
structure BuildDescriptor where
  srcs : List String
  incs : List String
  ldflags : List String
deriving DecidableEq

/-- One full resolution call.  The warning log is threaded in state-passing style: the builder
object's only mutation is emitting warnings, so a call takes the log accumulated so far and
returns the descriptor together with the extended log. -/
def resolve (f : Facts) (c : Cwd) (log : List Warning) : BuildDescriptor × List Warning :=
  let sw := sources f c
  ({ srcs := sw.1, incs := include_paths c, ldflags := extra_ldflags f }, log ++ sw.2)

/-- A concrete fact state with the runtime absent, used to instantiate the gate theorems. -/
def noTorchFacts : Facts :=
  { torchAvailable := false, rocm := false, cudaAvailable := true, sysCudaMajor := 12,
    torchCudaMajor := 12, cudaCapability := 8, superCompatible := true }

/-- A concrete fact state on the primary path with capability 8 and system toolchain major 10. -/
def gate10Facts : Facts :=
  { torchAvailable := true, rocm := false, cudaAvailable := true, sysCudaMajor := 10,
    torchCudaMajor := 12, cudaCapability := 8, superCompatible := true }

/-- A concrete fact state with the alternate (ROCm) toolchain variant active. -/
def rocmFacts : Facts :=
  { torchAvailable := true, rocm := true, cudaAvailable := true, sysCudaMajor := 12,
    torchCudaMajor := 12, cudaCapability := 8, superCompatible := true }

/-- C4: whenever the numerical-computation runtime is absent, `is_compatible` returns verdict
false together with exactly the install-recommendation warning, and no further rule is
evaluated (the output is this fixed pair regardless of every other fact); no exception. -/
theorem is_compatible_no_torch (f : Facts) (h : f.torchAvailable = false) :
    is_compatible f = (false, [Warning.installTorch]) := by
  simp [is_compatible, h]

/-- Witness for C4 at the concrete fact state `noTorchFacts`. -/
theorem is_compatible_no_torch_witness :
    is_compatible noTorchFacts = (false, [Warning.installTorch]) :=
  is_compatible_no_torch noTorchFacts rfl

/-- C2: on the primary path with a device of generation ≥ 8, if either toolchain major version
is < 11 the verdict is false and a warning is emitted (the CUDA-11 warning whenever the
runtime is present); and when both majors are ≥ 11 this rule passes, the verdict reducing to
the base-class verdict. -/
theorem is_compatible_gate_cuda11 (f : Facts)
    (hrocm : f.rocm = false) (havail : f.cudaAvailable = true)
    (hcap : 8 ≤ f.cudaCapability) :
    ((f.torchCudaMajor < 11 ∨ f.sysCudaMajor < 11) →
      (is_compatible f).1 = false ∧ (is_compatible f).2 ≠ [] ∧
      (f.torchAvailable = true → Warning.needCuda11 ∈ (is_compatible f).2)) ∧
    (f.torchAvailable = true → 11 ≤ f.torchCudaMajor → 11 ≤ f.sysCudaMajor →
      (is_compatible f).1 = f.superCompatible) := by
  have h6 : ¬ f.cudaCapability < 6 := by omega
  constructor
  · intro hlt
    cases htorch : f.torchAvailable with
    | false => simp [is_compatible, htorch]
    | true =>
      have hnew : 8 ≤ f.cudaCapability ∧ (f.torchCudaMajor < 11 ∨ f.sysCudaMajor < 11) :=
        ⟨hcap, hlt⟩
      simp [is_compatible, htorch, hrocm, havail, h6, hnew]
  · intro htorch h1 h2
    have hnew : ¬ (8 ≤ f.cudaCapability ∧ (f.torchCudaMajor < 11 ∨ f.sysCudaMajor < 11)) := by
      omega
    simp [is_compatible, htorch, hrocm, havail, h6, hnew]

/-- Witness for C2 at the concrete fact state `gate10Facts` (system major 10 < 11 while the
library major 12 ≥ 11): verdict false and the CUDA-11 warning present. -/
theorem is_compatible_gate_cuda11_witness :
    (is_compatible gate10Facts).1 = false ∧ Warning.needCuda11 ∈ (is_compatible gate10Facts).2 := by
  have h := (is_compatible_gate_cuda11 gate10Facts rfl rfl (by decide)).1 (Or.inr (by decide))
  exact ⟨h.1, h.2.2 rfl⟩

/-- C6: with the alternate (ROCm-style) toolchain variant active, the output of
`is_compatible` — verdict and warnings — does not change when the accelerator generation and
both toolchain major versions are replaced by arbitrary values: the generation and version
checks are unreachable. -/
theorem is_compatible_rocm_independent (f : Facts) (cap tm sm : Nat)
    (h : f.rocm = true) :
    is_compatible { f with cudaCapability := cap, torchCudaMajor := tm, sysCudaMajor := sm }
      = is_compatible f := by
  simp [is_compatible, h]

/-- Witness for C6 at the concrete fact state `rocmFacts`, replacing generation 8 by 3 and
both majors 12 by 0. -/
theorem is_compatible_rocm_independent_witness :
    is_compatible { rocmFacts with cudaCapability := 3, torchCudaMajor := 0, sysCudaMajor := 0 }
      = is_compatible rocmFacts :=
  is_compatible_rocm_independent rocmFacts 3 0 0 rfl

/-- The retention predicate rewritten through a successful `int(cc[0])` parse. -/
theorem retainedB_of_ccGen (cc : String) (g : Nat) (h : ccGen cc = some g) :
    retainedB cc = decide (6 ≤ g) := by
  simp [retainedB, h]

/-- The loop of `filter_ccs` computes, when it succeeds, exactly the filter of the input by
the retention predicate and the filter by its negation. -/
theorem filterLoop_eq_filter (ccs : List String) (r p : List String)
    (h : filterLoop ccs = some (r, p)) :
    r = ccs.filter retainedB ∧ p = ccs.filter (fun cc => !retainedB cc) := by
  induction ccs generalizing r p with
  | nil =>
    simp only [filterLoop, Option.some.injEq, Prod.mk.injEq] at h
    obtain ⟨h1, h2⟩ := h
    simp [h1.symm, h2.symm]
  | cons cc rest ih =>
    simp only [filterLoop] at h
    cases hg : ccGen cc with
    | none => rw [hg] at h; simp at h
    | some g =>
      rw [hg] at h
      cases hrec : filterLoop rest with
      | none => rw [hrec] at h; simp at h
      | some rp =>
        rw [hrec] at h
        obtain ⟨ih1, ih2⟩ := ih rp.1 rp.2 (by rw [hrec])
        have hret : retainedB cc = decide (6 ≤ g) := retainedB_of_ccGen cc g hg
        by_cases h6 : 6 ≤ g
        · simp only [if_pos h6, Option.some.injEq, Prod.mk.injEq] at h
          obtain ⟨h1, h2⟩ := h
          constructor
          · rw [h1.symm, List.filter_cons_of_pos (by simp [hret, h6]), ih1]
          · rw [h2.symm, List.filter_cons_of_neg (by simp [hret, h6]), ih2]
        · simp only [if_neg h6, Option.some.injEq, Prod.mk.injEq] at h
          obtain ⟨h1, h2⟩ := h
          constructor
          · rw [h1.symm, List.filter_cons_of_neg (by simp [hret, h6]), ih1]
          · rw [h2.symm, List.filter_cons_of_pos (by simp [hret, h6]), ih2]

/-- C3: when `filter_ccs` succeeds, the retained output is exactly the entries whose
generation digit is ≥ 6 and the pruned output exactly those whose digit is < 6 (both given
as order-preserving filters of the input), an entry with a parsed digit lands in the retained
list when ≥ 6 and in the pruned list when < 6, the two outputs are disjoint, each is a
sublist of the input (relative order preserved), and their concatenation is a permutation of
the input, so the order-preserving merge by original index reconstructs the input. -/
theorem filter_ccs_partition (ccs r p : List String) (ws : List Warning)
    (h : filter_ccs ccs = some (r, p, ws)) :
    r = ccs.filter retainedB ∧
    p = ccs.filter (fun cc => !retainedB cc) ∧
    (∀ cc g, cc ∈ ccs → ccGen cc = some g → ((6 ≤ g → cc ∈ r) ∧ (g < 6 → cc ∈ p))) ∧
    (∀ cc, cc ∈ r → ¬ cc ∈ p) ∧
    List.Sublist r ccs ∧ List.Sublist p ccs ∧
    List.Perm (r ++ p) ccs := by
  unfold filter_ccs at h
  cases hl : filterLoop ccs with
  | none => rw [hl] at h; simp at h
  | some rp =>
    rw [hl] at h
    simp only [Option.some.injEq, Prod.mk.injEq] at h
    obtain ⟨h1, h2, -⟩ := h
    obtain ⟨e1, e2⟩ := filterLoop_eq_filter ccs rp.1 rp.2 hl
    have hr : r = ccs.filter retainedB := h1 ▸ e1
    have hp : p = ccs.filter (fun cc => !retainedB cc) := h2 ▸ e2
    refine ⟨hr, hp, ?_, ?_, ?_, ?_, ?_⟩
    · intro cc g hin hg
      have hret : retainedB cc = decide (6 ≤ g) := retainedB_of_ccGen cc g hg
      constructor
      · intro h6
        rw [hr]
        exact List.mem_filter.mpr ⟨hin, by simp [hret, h6]⟩
      · intro h6
        rw [hp]
        exact List.mem_filter.mpr ⟨hin, by simp [hret]; omega⟩
    · intro cc hcr hcp
      rw [hr] at hcr
      rw [hp] at hcp
      have hb1 := (List.mem_filter.mp hcr).2
      have hb2 := (List.mem_filter.mp hcp).2
      simp at hb2
      rw [hb2] at hb1
      exact Bool.false_ne_true hb1
    · rw [hr]; exact List.filter_sublist ccs
    · rw [hp]; exact List.filter_sublist ccs
    · rw [hr, hp]; exact List.filter_append_perm retainedB ccs

/-- Witness for C3 at the concrete input `["86", "52"]`, whose retained list is `["86"]`. -/
theorem filter_ccs_partition_witness :
    (["86"] : List String) = (["86", "52"] : List String).filter retainedB :=
  (filter_ccs_partition ["86", "52"] ["86"] ["52"] [Warning.filteredCCs ["52"]] (by rfl)).1

/-- C7: when `filter_ccs` succeeds, the emitted warnings are empty when the pruned list is
empty and are exactly one batched warning carrying the whole pruned list otherwise. -/
theorem filter_ccs_warning_batched (ccs r p : List String) (ws : List Warning)
    (h : filter_ccs ccs = some (r, p, ws)) :
    ws = if p = [] then [] else [Warning.filteredCCs p] := by
  unfold filter_ccs at h
  cases hl : filterLoop ccs with
  | none => rw [hl] at h; simp at h
  | some rp =>
    rw [hl] at h
    simp only [Option.some.injEq, Prod.mk.injEq] at h
    obtain ⟨-, h2, h3⟩ := h
    rw [h3.symm, h2.symm]
    cases rp.2 with
    | nil => simp
    | cons a l => simp

/-- Witness for C7 at the concrete input `["86", "52"]`, whose pruned list is `["52"]`. -/
theorem filter_ccs_warning_batched_witness :
    ([Warning.filteredCCs ["52"]] : List Warning)
      = if (["52"] : List String) = [] then [] else [Warning.filteredCCs ["52"]] :=
  filter_ccs_warning_batched ["86", "52"] ["86"] ["52"] [Warning.filteredCCs ["52"]] (by rfl)

/-- C9: retention depends only on the first character of each architecture spec — the suffix
after the first character never changes the retention predicate; membership in the retained
output is equivalent to that predicate; and the multi-digit spec "10" is pruned (first digit
1 < 6) even though its numeric generation exceeds the minimum. -/
theorem filter_ccs_first_char_only :
    (∀ (c : Char) (s t : List Char), retainedB ⟨c :: s⟩ = retainedB ⟨c :: t⟩) ∧
    (∀ ccs r p ws, filter_ccs ccs = some (r, p, ws) →
      ∀ cc, cc ∈ ccs → (cc ∈ r ↔ retainedB cc = true)) ∧
    filter_ccs ["10", "86"] = some (["86"], ["10"], [Warning.filteredCCs ["10"]]) := by
  refine ⟨?_, ?_, by rfl⟩
  · intro c s t
    simp [retainedB, ccGen]
  · intro ccs r p ws h cc hin
    unfold filter_ccs at h
    cases hl : filterLoop ccs with
    | none => rw [hl] at h; simp at h
    | some rp =>
      rw [hl] at h
      simp only [Option.some.injEq, Prod.mk.injEq] at h
      obtain ⟨h1, -, -⟩ := h
      obtain ⟨e1, -⟩ := filterLoop_eq_filter ccs rp.1 rp.2 hl
      rw [h1.symm, e1]
      constructor
      · intro hmem
        exact (List.mem_filter.mp hmem).2
      · intro hb
        exact List.mem_filter.mpr ⟨hin, hb⟩

/-- Witness for C9: instantiating the membership equivalence at the concrete input
`["86", "52"]` and its retained entry "86". -/
theorem filter_ccs_first_char_only_witness :
    ("86" : String) ∈ (["86"] : List String) ↔ retainedB ("86") = true :=
  filter_ccs_first_char_only.2.1 ["86", "52"] ["86"] ["52"] [Warning.filteredCCs ["52"]]
    (by rfl) ("86") (by decide)

/-- A concrete fact state with the alternate (ROCm) variant active, a device available, and
generation exactly 8. -/
def rocmGen8Facts : Facts :=
  { torchAvailable := true, rocm := true, cudaAvailable := true, sysCudaMajor := 12,
    torchCudaMajor := 12, cudaCapability := 8, superCompatible := true }

/-- A concrete fact state on the primary path with a device of generation exactly 8. -/
def primaryGen8Facts : Facts :=
  { torchAvailable := true, rocm := false, cudaAvailable := true, sysCudaMajor := 12,
    torchCudaMajor := 12, cudaCapability := 8, superCompatible := true }

/-- A concrete working directory containing the project subdirectory. -/
def projCwd : Cwd := { deepspeedDirExists := true }

/-- C1: the claim matches the spec's clear intent, but the code slips: `torch` is never
bound at module scope (the `import torch` at line 24 is local to `is_compatible`), so every
call of `sources` with the primary toolchain active raises `NameError` at line 73 before any
accelerator fact is read — in particular at the claim's no-accelerator and generation-8 fact
states — while with the alternate (ROCm) variant active, short-circuit evaluation skips the
unbound name and the prefixed baseline is returned with no warning. -/
theorem sources_primary_name_error (f : Facts) (c : Cwd) :
    (f.rocm = false → sources_actual f c = none) ∧
    (f.rocm = true →
      sources_actual f c
        = some (baselineSources.map (fun s => osPathJoin ( get_prefix c) s), [])) := by
  constructor
  · intro h
    simp [sources_actual, h]
  · intro h
    simp [sources_actual, h]

/-- Witness for C1 at the concrete primary-path generation-8 fact state (the failing input)
and at the concrete ROCm state. -/
theorem sources_primary_name_error_witness :
    sources_actual primaryGen8Facts projCwd = none ∧
    sources_actual rocmGen8Facts projCwd
      = some (baselineSources.map (fun s => osPathJoin ( get_prefix projCwd) s), []) :=
  ⟨(sources_primary_name_error primaryGen8Facts projCwd).1 rfl,
   (sources_primary_name_error rocmGen8Facts projCwd).2 rfl⟩

/-- Joining a relative component onto a prefix that does not end in a separator yields a path
the prefix's characters are a prefix of. -/
theorem osPathJoin_isPrefix (a b : String) (hb : b.data.head? ≠ some '/')
    (ha : a.data.getLast? ≠ some '/') :
    List.IsPrefix a.data (osPathJoin a b).data := by
  unfold osPathJoin
  rw [if_neg hb]
  by_cases hae : a = ""
  · rw [if_pos hae]
    rw [hae]
    exact List.nil_prefix
  · rw [if_neg hae, if_neg ha]
    refine ⟨("/" ++ b).data, ?_⟩
    rw [String.data_append, String.data_append, String.data_append, List.append_assoc]

/-- Every entry of `sources` is the join of the resolved prefix with one of the sixteen
relative source paths. -/
theorem mem_sources_shape (f : Facts) (c : Cwd) (s : String) (hs : s ∈ (sources f c).1) :
    ∃ x, x ∈ baselineSources ++ gen8Sources ∧ s = osPathJoin ( get_prefix c) x := by
  unfold sources at hs
  simp only at hs
  obtain ⟨x, hx, rfl⟩ := List.mem_map.mp hs
  refine ⟨x, ?_, rfl⟩
  split at hx
  · split at hx
    · simp only at hx
      exact List.mem_append.mpr (Or.inl hx)
    · simp only at hx
      exact hx
  · simp only at hx
    exact List.mem_append.mpr (Or.inl hx)

/-- Every entry of `include_paths` is the join of the resolved prefix with one of the seven
relative include directories. -/
theorem mem_include_paths_shape (c : Cwd) (s : String) (hs : s ∈ include_paths c) :
    ∃ x, x ∈ includeDirs ∧ s = osPathJoin ( get_prefix c) x := by
  unfold include_paths at hs
  obtain ⟨x, hx, rfl⟩ := List.mem_map.mp hs
  exact ⟨x, hx, rfl⟩

/-- None of the relative source paths starts with a separator. -/
theorem sources_rel_no_slash :
    ∀ x ∈ baselineSources ++ gen8Sources, x.data.head? ≠ some '/' := by decide

/-- None of the relative include directories starts with a separator. -/
theorem includeDirs_rel_no_slash : ∀ x ∈ includeDirs, x.data.head? ≠ some '/' := by decide

/-- The resolved prefix never ends in a separator. -/
theorem get_prefix_no_trailing_slash (c : Cwd) :
    ( get_prefix c).data.getLast? ≠ some '/' := by
  unfold get_prefix
  split <;> decide

/-- C5: the resolved prefix equals the project subdirectory name exactly when that
subdirectory exists under cwd, and equals the parent reference otherwise; and every path
returned by `sources` and by `include_paths` begins with the resolved prefix. -/
theorem get_prefix_resolution (f : Facts) (c : Cwd) :
    ( get_prefix c = "deepspeed" ↔ c.deepspeedDirExists = true) ∧
    (c.deepspeedDirExists = false → get_prefix c = "..") ∧
    (∀ s, s ∈ (sources f c).1 → List.IsPrefix ( get_prefix c).data s.data) ∧
    (∀ s, s ∈ include_paths c → List.IsPrefix ( get_prefix c).data s.data) := by
  refine ⟨?_, ?_, ?_, ?_⟩
  · unfold get_prefix
    cases h : c.deepspeedDirExists <;> simp
  · intro h
    unfold get_prefix
    rw [h]
    rfl
  · intro s hs
    obtain ⟨x, hx, rfl⟩ := mem_sources_shape f c s hs
    exact osPathJoin_isPrefix _ x (sources_rel_no_slash x hx) (get_prefix_no_trailing_slash c)
  · intro s hs
    obtain ⟨x, hx, rfl⟩ := mem_include_paths_shape c s hs
    exact osPathJoin_isPrefix _ x (includeDirs_rel_no_slash x hx) (get_prefix_no_trailing_slash c)

/-- Witness for C5: at the concrete cwd containing the project subdirectory, the concrete
include path "deepspeed/inference/v2/kernels/includes" begins with the resolved prefix. -/
theorem get_prefix_resolution_witness :
    List.IsPrefix ( get_prefix projCwd).data ("deepspeed/inference/v2/kernels/includes").data :=
  (get_prefix_resolution primaryGen8Facts projCwd).2.2.2
    ("deepspeed/inference/v2/kernels/includes") (by decide)

/-- C8: full resolution is deterministic and idempotent: the resolved `BuildDescriptor` does
not depend on the warning log accumulated before the call (the only state the builder
mutates), and resolving twice in sequence with identical facts and identical cwd yields
identical descriptors. -/
theorem resolve_deterministic (f : Facts) (c : Cwd) (log1 log2 : List Warning) :
    (resolve f c log1).1 = (resolve f c log2).1 ∧
    (resolve f c []).1 = (resolve f c ((resolve f c []).2)).1 :=
  ⟨rfl, rfl⟩

/-- C10: `extra_ldflags` returns the empty list unconditionally, so the resolved
`BuildDescriptor` carries an empty link-flag list for every fact state, cwd and prior log. -/
theorem extra_ldflags_always_empty (f : Facts) (c : Cwd) (log : List Warning) :
    extra_ldflags f = [] ∧ (resolve f c log).1.ldflags = [] :=
  ⟨rfl, rfl⟩

end InferenceCoreOps
